import Mathlib

/-!
Verification development for the SRPK v3.1 static analysis engine
(`srpk_v3_1.py`).  The Python source is shallowly embedded: pure helpers
become Lean functions, the stateful cache and graph become explicit state
passing, and fallible code returns `Option`/`Except`.  Machine wall-clock,
process memory, thread scheduling and file I/O are modelled as explicit
inputs (fields of environment records), so that every function here is a
total, executable Lean definition mirroring the control flow of the source.
-/

set_option autoImplicit false

namespace SRPK

/-! ## Python primitives -/

/-- Truthiness of an optional Python string argument: `None` and the empty
string are falsy, every other string is truthy.  Used to model guards of
the form `if file_hash and ...` in `CacheManager.get`. -/
def pyTruthyStr : Option String → Bool
  | none => false
  | some s => s != ""

/-! ## Cache Store (`CacheManager`, srpk_v3_1.py lines 331-492)

The on-disk pickle store is modelled as an association list from storage
paths to stored files.  `_get_cache_path` derives the path from a sha256 of
the logical key truncated to a fixed width; the truncation is modelled as
an injective map (the identity on keys), since key collisions are declared
an open question out of scope by the specification.  Compression only
changes the on-disk format, not the observable get/set behaviour, so the
`compression` flag is not modelled.  `cache_path.touch()` on a hit only
refreshes the access time used by the age sweep; no claim depends on it,
so it is modelled as a no-op. -/

/-- The exception raised when deserializing a stored cache entry fails.
`CacheManager.get` catches `pickle.PickleError`, `EOFError` and
`gzip.BadGzipFile` in one handler (which deletes the file) and every other
exception in a second handler (which does not).  `otherError` stands for a
deserialization failure outside the first tuple, e.g. an `AttributeError`
raised by `pickle.load` when a pickled class no longer resolves. -/
inductive LoadFailure where
  | pickleError
  | eofError
  | badGzipFile
  | otherError
  deriving DecidableEq, Repr

/-- The metadata dictionary written by `CacheManager.set` (lines 444-449). -/
structure CacheEntry (α : Type) where
  value : α
  timestamp : ℚ
  file_hash : Option String
  version : String := "3.1"
  deriving DecidableEq, Repr

/-- What deserializing one stored cache file yields: a well-formed entry,
or a deserialization failure of some kind. -/
inductive BlobContent (α : Type) where
  | good (entry : CacheEntry α)
  | corrupt (kind : LoadFailure)
  deriving DecidableEq, Repr

/-- One file in the cache directory, with the filesystem metadata the
eviction sweep reads (`st_mtime`, `st_size`). -/
structure CacheFile (α : Type) where
  content : BlobContent α
  mtime : ℚ
  size : ℕ
  deriving DecidableEq, Repr

/-- The state of a `CacheManager`: the enabled flag, the size cap in bytes
(`max_size_mb * 1024 * 1024`), and the cache directory contents. -/
structure CacheState (α : Type) where
  enabled : Bool
  max_size_bytes : ℕ
  files : List (String × CacheFile α)
  deriving DecidableEq, Repr

/-- `_get_cache_path` (lines 348-352): sha256 of the key truncated to a
short fixed-width file name; modelled as the identity (injective). -/
def _get_cache_path (key : String) : String := key

/-- Look a storage path up in the cache directory. -/
def CacheState.lookup {α : Type} (s : CacheState α) (path : String) :
    Option (CacheFile α) :=
  (s.files.find? (fun p => p.1 == path)).map (fun p => p.2)

/-- `cache_path.unlink()`: remove one file from the directory. -/
def CacheState.delete {α : Type} (s : CacheState α) (path : String) :
    CacheState α :=
  { s with files := s.files.filter (fun p => p.1 != path) }

/-- Writing one file, overwriting any previous file at the same path. -/
def CacheState.write {α : Type} (s : CacheState α) (path : String)
    (f : CacheFile α) : CacheState α :=
  { s with files := (s.files.filter (fun p => p.1 != path)) ++ [(path, f)] }

/-- Total byte size of the cache directory (line 375). -/
def CacheState.totalSize {α : Type} (s : CacheState α) : ℕ :=
  (s.files.map (fun p => p.2.size)).sum

/-- Insert into a list sorted by ascending `mtime` (stable). -/
def insertByMtime {α : Type} (x : String × CacheFile α) :
    List (String × CacheFile α) → List (String × CacheFile α)
  | [] => [x]
  | y :: ys =>
      if x.2.mtime < y.2.mtime then x :: y :: ys else y :: insertByMtime x ys

/-- `sorted(files, key=st_mtime)` (lines 380-383), as a stable insertion
sort by ascending modification time. -/
def sortByMtime {α : Type} : List (String × CacheFile α) →
    List (String × CacheFile α)
  | [] => []
  | x :: xs => insertByMtime x (sortByMtime xs)

/-- The deletion loop of `_enforce_size_limit` (lines 385-394): walk the
files oldest first and delete until the running total is under the cap.
Returns the list of paths deleted. -/
def evictKeys {α : Type} :
    List (String × CacheFile α) → ℕ → ℕ → List String
  | [], _, _ => []
  | (k, f) :: rest, total, maxBytes =>
      if total ≤ maxBytes then []
      else k :: evictKeys rest (total - f.size) maxBytes

/-- `_enforce_size_limit` (lines 370-394): if the directory exceeds the
cap, delete oldest-by-mtime files until under it. -/
def _enforce_size_limit {α : Type} (s : CacheState α) : CacheState α :=
  if !s.enabled then s
  else
    let total := s.totalSize
    if total ≤ s.max_size_bytes then s
    else
      let doomed := evictKeys (sortByMtime s.files) total s.max_size_bytes
      { s with files := s.files.filter (fun p => !(doomed.contains p.1)) }

/-- `CacheManager.get` (lines 396-435).  Returns the retrieved value (or
`none` for a miss) together with the cache state after the call; the
function never raises, every failure is a miss.  The branches mirror the
source: disabled or missing path is a miss; a deserialization failure of
kind `pickle.PickleError`/`EOFError`/`gzip.BadGzipFile` deletes the file
and misses, any other load failure misses without deleting; a truthy
`file_hash` argument disagreeing with the stored hash deletes and misses;
otherwise the stored value is returned. -/
def CacheManager.get {α : Type} (s : CacheState α) (key : String)
    (file_hash : Option String) : Option α × CacheState α :=
  if !s.enabled then (none, s)
  else
    let path := _get_cache_path key
    match s.lookup path with
    | none => (none, s)
    | some file =>
      match file.content with
      | .corrupt kind =>
        match kind with
        | .pickleError => (none, s.delete path)
        | .eofError => (none, s.delete path)
        | .badGzipFile => (none, s.delete path)
        | .otherError => (none, s)
      | .good entry =>
        if pyTruthyStr file_hash && (entry.file_hash != file_hash) then
          (none, s.delete path)
        else
          (some entry.value, s)

/-- `CacheManager.set` (lines 437-465): serialize the value with metadata,
write it, then re-apply the size sweep.  `now` is the wall clock read by
`time.time()` (also the new file mtime) and `serialized_size` the size of
the pickled payload on disk; both are environment inputs. -/
def CacheManager.set {α : Type} (s : CacheState α) (key : String)
    (value : α) (file_hash : Option String) (now : ℚ)
    (serialized_size : ℕ) : CacheState α :=
  if !s.enabled then s
  else
    let entry : CacheEntry α :=
      { value := value, timestamp := now, file_hash := file_hash }
    let s1 := s.write (_get_cache_path key)
      { content := .good entry, mtime := now, size := serialized_size }
    _enforce_size_limit s1

/-! ## Python abstract syntax trees

`ast.walk` visits every node of the tree; the metric helpers only
discriminate the node classes below and treat everything else uniformly,
so the embedding keeps those classes as constructors and folds every other
node class into `other` (which still carries its child nodes, since
`ast.walk` descends into them).  Child lists use the mutually inductive
`PyAstList` so that all recursions are plainly structural. -/

mutual

inductive PyAst where
  | ifStmt (test : PyAst) (body orelse : PyAstList)
  | whileStmt (test : PyAst) (body orelse : PyAstList)
  | forStmt (target iter : PyAst) (body orelse : PyAstList)
  | exceptHandler (body : PyAstList)
  | withStmt (items body : PyAstList)
  | assertStmt (test : PyAst)
  | raiseStmt (exc : PyAstList)
  | boolOp (values : PyAstList)
  | compClause (ifs : PyAstList) (rest : PyAstList)
  | other (children : PyAstList)

inductive PyAstList where
  | nil
  | cons (hd : PyAst) (tl : PyAstList)

end

/-- Number of nodes in a child list (`len(node.values)`, `len(node.ifs)`). -/
def PyAstList.length : PyAstList → ℤ
  | .nil => 0
  | .cons _ tl => 1 + PyAstList.length tl

mutual

/-- Contribution of a subtree to `_calculate_cyclomatic_complexity`
(lines 1087-1100): summed over every node `ast.walk` reaches, a branch
construct (`If`/`While`/`For`/`ExceptHandler`/`With`/`Assert`/`Raise`)
adds 1, a `BoolOp` adds `len(values) - 1` (Python integer subtraction,
hence the result type `ℤ`), and a comprehension clause adds one per
filter in `ifs`. -/
def cycWalk : PyAst → ℤ
  | .ifStmt t b e => 1 + cycWalk t + cycWalkList b + cycWalkList e
  | .whileStmt t b e => 1 + cycWalk t + cycWalkList b + cycWalkList e
  | .forStmt tg it b e =>
      1 + cycWalk tg + cycWalk it + cycWalkList b + cycWalkList e
  | .exceptHandler b => 1 + cycWalkList b
  | .withStmt i b => 1 + cycWalkList i + cycWalkList b
  | .assertStmt t => 1 + cycWalk t
  | .raiseStmt e => 1 + cycWalkList e
  | .boolOp vs => (PyAstList.length vs - 1) + cycWalkList vs
  | .compClause ifs rest =>
      PyAstList.length ifs + cycWalkList ifs + cycWalkList rest
  | .other cs => cycWalkList cs

def cycWalkList : PyAstList → ℤ
  | .nil => 0
  | .cons hd tl => cycWalk hd + cycWalkList tl

end

/-- `CodeAnalyzer._calculate_cyclomatic_complexity` (lines 1087-1100):
`complexity = 1` plus the walk contributions. -/
def _calculate_cyclomatic_complexity (tree : PyAst) : ℤ :=
  1 + cycWalk tree

mutual

/-- Count of branch constructs in a tree: one per
conditional/loop/exception-handler/context-block/assert/raise node. -/
def branchCount : PyAst → ℤ
  | .ifStmt t b e => 1 + branchCount t + branchCountList b + branchCountList e
  | .whileStmt t b e => 1 + branchCount t + branchCountList b + branchCountList e
  | .forStmt tg it b e =>
      1 + branchCount tg + branchCount it + branchCountList b + branchCountList e
  | .exceptHandler b => 1 + branchCountList b
  | .withStmt i b => 1 + branchCountList i + branchCountList b
  | .assertStmt t => 1 + branchCount t
  | .raiseStmt e => 1 + branchCountList e
  | .boolOp vs => branchCountList vs
  | .compClause ifs rest => branchCountList ifs + branchCountList rest
  | .other cs => branchCountList cs

def branchCountList : PyAstList → ℤ
  | .nil => 0
  | .cons hd tl => branchCount hd + branchCountList tl

end

mutual

/-- Sum of `(operand count - 1)` over every short-circuit boolean
expression in a tree. -/
def boolOpExtra : PyAst → ℤ
  | .ifStmt t b e => boolOpExtra t + boolOpExtraList b + boolOpExtraList e
  | .whileStmt t b e => boolOpExtra t + boolOpExtraList b + boolOpExtraList e
  | .forStmt tg it b e =>
      boolOpExtra tg + boolOpExtra it + boolOpExtraList b + boolOpExtraList e
  | .exceptHandler b => boolOpExtraList b
  | .withStmt i b => boolOpExtraList i + boolOpExtraList b
  | .assertStmt t => boolOpExtra t
  | .raiseStmt e => boolOpExtraList e
  | .boolOp vs => (PyAstList.length vs - 1) + boolOpExtraList vs
  | .compClause ifs rest => boolOpExtraList ifs + boolOpExtraList rest
  | .other cs => boolOpExtraList cs

def boolOpExtraList : PyAstList → ℤ
  | .nil => 0
  | .cons hd tl => boolOpExtra hd + boolOpExtraList tl

end

mutual

/-- Total number of comprehension filter clauses (`ifs`) in a tree. -/
def compIfCount : PyAst → ℤ
  | .ifStmt t b e => compIfCount t + compIfCountList b + compIfCountList e
  | .whileStmt t b e => compIfCount t + compIfCountList b + compIfCountList e
  | .forStmt tg it b e =>
      compIfCount tg + compIfCount it + compIfCountList b + compIfCountList e
  | .exceptHandler b => compIfCountList b
  | .withStmt i b => compIfCountList i + compIfCountList b
  | .assertStmt t => compIfCount t
  | .raiseStmt e => compIfCountList e
  | .boolOp vs => compIfCountList vs
  | .compClause ifs rest => PyAstList.length ifs + compIfCountList ifs + compIfCountList rest
  | .other cs => compIfCountList cs

def compIfCountList : PyAstList → ℤ
  | .nil => 0
  | .cons hd tl => compIfCount hd + compIfCountList tl

end

mutual

/-- Well-formedness of a tree as produced by `ast.parse` on syntactically
valid input: every `BoolOp` node has at least two operands (the grammar
admits no shorter boolean expression). -/
def wfAst : PyAst → Bool
  | .ifStmt t b e => wfAst t && wfAstList b && wfAstList e
  | .whileStmt t b e => wfAst t && wfAstList b && wfAstList e
  | .forStmt tg it b e => wfAst tg && wfAst it && wfAstList b && wfAstList e
  | .exceptHandler b => wfAstList b
  | .withStmt i b => wfAstList i && wfAstList b
  | .assertStmt t => wfAst t
  | .raiseStmt e => wfAstList e
  | .boolOp vs => (2 ≤ PyAstList.length vs) && wfAstList vs
  | .compClause ifs rest => wfAstList ifs && wfAstList rest
  | .other cs => wfAstList cs

def wfAstList : PyAstList → Bool
  | .nil => true
  | .cons hd tl => wfAst hd && wfAstList tl

end

/-! ## Robust analyzer (`RobustAnalyzer`, srpk_v3_1.py lines 530-756)

`analyze_file_safe` is embedded as a function over a `FileEnv` record that
carries everything the environment decides: the file size `os.path.getsize`
reports, the process/system memory the guard reads, how decoding the file
goes, the raw line content a replacement re-read would produce, which
outcome `ast.parse` has on a given text, and whether the parse worker hits
its wall-clock timeout.  The parse oracle takes the text as a list of
lines (the shape every recovery strategy manipulates). -/

/-- Severity and kind live in strings in the source (`ErrorReport`
dataclass, lines 514-528); fields not touched by any claim
(`stack_trace`, `timestamp`) are omitted. -/
structure ErrorReport where
  file_path : String
  error_type : String
  error_message : String
  line_number : Option ℕ := none
  column_number : Option ℕ := none
  context : Option String := none
  severity : String := "error"
  deriving DecidableEq, Repr

/-- Outcome of `ast.parse` on one concrete text: a tree, a `SyntaxError`
carrying position data, or any other exception (by class name) escaping
the parse — e.g. a genuine `MemoryError` or `RecursionError`. -/
inductive ParseOutcome where
  | success (tree : PyAst)
  | synError (lineno : ℕ) (offset : ℕ) (text : String)
  | raisesOther (excName : String)

/-- How reading the file with the ordered encoding list goes (lines
580-601): some encoding succeeds; all fail and the `errors="replace"`
re-read is used (recording a warning); or the read itself raises an
exception of the named class (e.g. a builtin `MemoryError`). -/
inductive ReadOutcome where
  | ok (lines : List String)
  | replaced (lines : List String)
  | raises (excName : String)

/-- Environment of one `analyze_file_safe` call. -/
structure FileEnv where
  path : String
  size_mb : ℚ
  /-- Whether the process RSS exceeds the effective limit
  `min(configured_gb, 0.8 * available_gb)` before the forced collection
  pass (`check_memory_usage`, lines 545-554). -/
  mem_exceeded_pre : Bool
  /-- Whether the RSS still exceeds the effective limit after
  `gc.collect()` (lines 555-561). -/
  mem_exceeded_post : Bool
  read_outcome : ReadOutcome
  /-- Lines an `errors="replace"` re-read of the file yields; used by the
  recovery strategies, which re-open the file themselves. -/
  raw_lines : List String
  /-- Outcome of `ast.parse` on a given text (as lines). -/
  parse : List String → ParseOutcome
  /-- Whether the isolated parse worker exceeds the per-file timeout. -/
  parse_times_out : Bool

/-- Configuration slice read by `RobustAnalyzer.__init__` (lines 536-538). -/
structure AnalyzerConfig where
  max_memory_gb : ℚ := 4
  timeout_seconds : ℚ := 30
  max_file_size_mb : ℚ := 10
  deriving DecidableEq, Repr

/-- `check_memory_usage` (lines 545-561) raises `MemoryLimitError`
exactly when the RSS exceeds the effective limit
`min(configured, 0.8 * available)` both before and after the forced
collection pass; whether each of the two readings exceeds the limit is
environment data (`FileEnv.mem_exceeded_pre`/`mem_exceeded_post`), since
process memory is an external observation. -/
def memGuardTrips (f : FileEnv) : Bool :=
  f.mem_exceeded_pre && f.mem_exceeded_post

/-- The warning-severity report appended for an oversized file
(lines 569-574), recorded before any read of the file body. -/
def fileSizeReport (f : FileEnv) : ErrorReport :=
  { file_path := f.path, error_type := "FileSizeError",
    error_message := "File too large", severity := "warning" }

/-- The warning appended when every encoding fails and the file is read
with replacement characters (lines 596-601). -/
def encodingWarningReport (f : FileEnv) : ErrorReport :=
  { file_path := f.path, error_type := "EncodingWarning",
    error_message := "File read with errors replaced",
    severity := "warning" }

/-- The critical report appended by the `except MemoryLimitError` handler
(lines 611-619). -/
def memoryLimitReport (f : FileEnv) : ErrorReport :=
  { file_path := f.path, error_type := "MemoryLimitError",
    error_message := "Memory usage exceeds limit", severity := "critical" }

/-- The report appended when the parse worker exceeds its timeout
(lines 657-664). -/
def timeoutReport (f : FileEnv) : ErrorReport :=
  { file_path := f.path, error_type := "TimeoutError",
    error_message := "Parsing timeout", severity := "error" }

/-- The report appended for a `SyntaxError` caught inside
`_parse_with_timeout` (lines 674-684). -/
def synErrorReport (f : FileEnv) (lineno offset : ℕ) (text : String) :
    ErrorReport :=
  { file_path := f.path, error_type := "SyntaxError",
    error_message := "invalid syntax", line_number := some lineno,
    column_number := some offset, context := some text,
    severity := "error" }

/-- The error-severity report the generic handler appends when no recovery
strategy applies or recovery fails (lines 630-636). -/
def genericReport (f : FileEnv) (excName : String) : ErrorReport :=
  { file_path := f.path, error_type := excName,
    error_message := "unhandled exception", severity := "error" }

/-- `_parse_with_timeout` (lines 639-684): on worker timeout, record a
timeout report and return `None`; on `SyntaxError`, record a syntax report
and return `None`; any other exception raised by the worker is re-raised
(`raise result`) past the `except SyntaxError` clause, so it propagates to
the caller — represented by the `Except.error` case. -/
def _parse_with_timeout (f : FileEnv) (lines : List String) :
    Except String (Option PyAst) × List ErrorReport :=
  if f.parse_times_out then (.ok none, [timeoutReport f])
  else
    match f.parse lines with
    | .success t => (.ok (some t), [])
    | .synError ln off txt => (.ok none, [synErrorReport f ln off txt])
    | .raisesOther excName => (.error excName, [])

/-- `_recover_from_syntax_error` (lines 686-705): re-read the file, keep
each line that parses on its own and replace the rest with a comment
placeholder, then re-parse the reconstruction. -/
def _recover_from_syntax_error (f : FileEnv) :
    Option (PyAst × List String) :=
  let valid_lines := (f.raw_lines.enumFrom 1).map (fun p =>
    match f.parse [p.2] with
    | .success _ => p.2
    | _ => "# Line " ++ toString p.1 ++ " skipped due to syntax error")
  match f.parse valid_lines with
  | .success t => some (t, valid_lines)
  | _ => none

/-- `_recover_from_encoding_error` (lines 707-718): re-read the raw bytes
with forced lossy replacement and re-parse. -/
def _recover_from_encoding_error (f : FileEnv) :
    Option (PyAst × List String) :=
  match f.parse f.raw_lines with
  | .success t => some (t, f.raw_lines)
  | _ => none

/-- `_recover_from_memory_error` (lines 720-738): collect, truncate the
file to its first 1000 lines, and retry the parse on the truncation. -/
def _recover_from_memory_error (f : FileEnv) :
    Option (PyAst × List String) :=
  let truncated := f.raw_lines.take 1000
  match f.parse truncated with
  | .success t => some (t, truncated)
  | _ => none

/-- `error_recovery_strategies` (lines 539-543): exception-class-name keyed
dispatch table for the generic exception handler. -/
def error_recovery_strategies :
    List (String × (FileEnv → Option (PyAst × List String))) :=
  [("SyntaxError", _recover_from_syntax_error),
   ("UnicodeDecodeError", _recover_from_encoding_error),
   ("MemoryError", _recover_from_memory_error)]

/-- The body of the big `try` block of `analyze_file_safe` (lines
565-609): size guard, memory guard, decode, parse under timeout.  The
result pairs an `Except` (an escaping exception, by class name) or the
returned value with the error reports appended so far (appends to
`self.errors` persist even when an exception follows them). -/
def analyzeFileBody (cfg : AnalyzerConfig) (f : FileEnv) :
    Except String (Option (PyAst × List String)) × List ErrorReport :=
  if cfg.max_file_size_mb < f.size_mb then
    (.ok none, [fileSizeReport f])
  else if memGuardTrips f then
    (.error "MemoryLimitError", [])
  else
    let step := fun (lines : List String) (pre : List ErrorReport) =>
      match _parse_with_timeout f lines with
      | (.ok (some t), reps) => (Except.ok (some (t, lines)), pre ++ reps)
      | (.ok none, reps) => (Except.ok none, pre ++ reps)
      | (.error e, reps) => (Except.error e, pre ++ reps)
    match f.read_outcome with
    | .ok lines => step lines []
    | .replaced lines => step lines [encodingWarningReport f]
    | .raises excName => (.error excName, [])

/-- `analyze_file_safe` (lines 563-637): run the body; a
`MemoryLimitError` is caught by its dedicated handler, which appends a
critical report and gives the file up; any other exception reaches the
generic handler, which first consults `error_recovery_strategies` by the
exception class name and returns the recovery result when one succeeds,
appending an error report and returning `None` otherwise. -/
def analyze_file_safe (cfg : AnalyzerConfig) (f : FileEnv) :
    Option (PyAst × List String) × List ErrorReport :=
  match analyzeFileBody cfg f with
  | (.ok r, reps) => (r, reps)
  | (.error excName, reps) =>
    if excName = "MemoryLimitError" then
      (none, reps ++ [memoryLimitReport f])
    else
      match error_recovery_strategies.lookup excName with
      | some strategy =>
        match strategy f with
        | some res => (some res, reps)
        | none => (none, reps ++ [genericReport f excName])
      | none => (none, reps ++ [genericReport f excName])

/-! ## Duplicate-code detector (`_detect_duplicate_code`, lines 1339-1358)

Blocks are keyed by `hashlib.md5` of their text; the hash is modelled as
the block text itself (an injective idealization — md5 collisions are the
same theoretical caveat the specification already accepts for cache
keys). -/

/-- One code-smell dictionary as appended by `_detect_duplicate_code`. -/
structure DupSmell where
  type : String
  line : ℕ
  severity : String
  message : String
  duplicate_of : ℕ
  deriving DecidableEq, Repr

/-- The 5-line block starting at 0-based index `i`
(joining `lines[i:i+5]` with a newline). -/
def blockAt (lines : List String) (i : ℕ) : String :=
  String.intercalate "\x0a" ((lines.drop i).take 5)

/-- The smell dictionary appended for a repeated block at 0-based index
`i` whose first occurrence starts at 1-based line `first`. -/
def dupSmell (i first : ℕ) : DupSmell :=
  { type := "duplicate_code", line := i + 1, severity := "low",
    message := "Possible duplicate code block starting at line " ++
      toString (i + 1),
    duplicate_of := first }

/-- The `for i in range(len(lines) - min_block_size)` loop of
`_detect_duplicate_code`: `seen` maps block text to the 1-based start line
of its first occurrence, `i` is the current index and `remaining` the
number of indices left to scan. -/
def dupLoop (lines : List String) (seen : List (String × ℕ)) (i : ℕ)
    (remaining : ℕ) (smells : List DupSmell) : List DupSmell :=
  match remaining with
  | 0 => smells
  | r + 1 =>
    let b := blockAt lines i
    match seen.lookup b with
    | some first => dupLoop lines seen (i + 1) r (smells ++ [dupSmell i first])
    | none => dupLoop lines ((b, i + 1) :: seen) (i + 1) r smells

/-- `_detect_duplicate_code` (lines 1339-1358).  Note the loop bound:
`range(len(lines) - 5)` stops one index short of the last full 5-line
block, so the block occupying the final five lines of the file is never
hashed. -/
def _detect_duplicate_code (lines : List String) (smells : List DupSmell) :
    List DupSmell :=
  dupLoop lines [] 0 (lines.length - 5) smells

/-- The `seen_blocks` dictionary as `dupLoop` has built it after
processing indices `0, ..., i-1`; used to specify the loop. -/
def seenAt (lines : List String) : ℕ → List (String × ℕ)
  | 0 => []
  | i + 1 =>
    let s := seenAt lines i
    if (s.lookup (blockAt lines i)).isSome then s
    else (blockAt lines i, i + 1) :: s

/-! ## Code metrics and the maintainability index
(`CodeAnalyzer.analyze_code`, lines 1039-1085, and
`_calculate_maintainability_index`, lines 1360-1385)

`analyze_code` derives the line metrics directly from the text; the
AST-dependent metrics require `ast.parse(code)` to succeed, which the
embedding represents by an optional argument: `none` models the
`except SyntaxError` path (structural fields keep their dataclass
defaults), `some` carries the parsed tree together with the Halstead
volume `_calculate_halstead_metrics` computes for it (the volume is a
real-log expression over operator/operand multisets that `PyAst` does not
record, so it enters as data; every other Halstead key is irrelevant to
the claims).  Real-number fields use `ℝ` because the formulas involve
natural logarithms. -/

/-- The fields of the `CodeMetrics` dataclass (lines 956-974) that the
maintainability computation and the claims read.  `halstead_volume` models
`halstead_metrics.get("volume", ...)`: `none` is the empty dict left by a
failed parse, `some v` a populated dict. -/
structure CodeMetrics where
  cyclomatic_complexity : ℤ := 0
  lines_of_code : ℕ := 0
  logical_lines_of_code : ℕ := 0
  comment_lines : ℕ := 0
  blank_lines : ℕ := 0
  comment_ratio : ℝ := 0
  maintainability_index : ℝ := 0
  halstead_volume : Option ℝ := none

/-- `str.strip()` on a line, as used by the blank/comment line counters. -/
def pyStrip (s : String) : String := s.trim

/-- `CodeAnalyzer._calculate_maintainability_index` (lines 1360-1385):
`volume = halstead_metrics.get("volume", 1)`, `loc = max(logical, 1)`,
`mi = 171`, minus `5.2*ln(volume)` when positive, minus
`0.23*cyclomatic`, minus `16.2*ln(loc)` when positive, plus
`comment_ratio*50`, clamped into `[0, 100]`. -/
noncomputable def _calculate_maintainability_index (m : CodeMetrics) : ℝ :=
  let volume : ℝ := m.halstead_volume.getD 1
  let loc : ℕ := max m.logical_lines_of_code 1
  let mi1 : ℝ := 171
  let mi2 : ℝ := if 0 < volume then mi1 - 5.2 * Real.log volume else mi1
  let mi3 : ℝ := mi2 - 0.23 * (m.cyclomatic_complexity : ℝ)
  let mi4 : ℝ := if 0 < loc then mi3 - 16.2 * Real.log (loc : ℝ) else mi3
  let mi5 : ℝ := mi4 + m.comment_ratio * 50
  max 0 (min 100 mi5)

/-- The metrics record `CodeAnalyzer.analyze_code` (lines 1039-1085) has
built just before line 1083 computes the maintainability index: the line
metrics derive from the raw text, the AST metrics from the parse result.
`code` is the raw text; `parsed` is `some (tree, halsteadVolume)` when
`ast.parse(code)` succeeds and `none` on the `except SyntaxError` path
(structural fields keep their dataclass defaults). -/
noncomputable def analyze_code_pre (code : String)
    (parsed : Option (PyAst × ℝ)) : CodeMetrics :=
  let lines := code.splitOn "\x0a"
  let loc := lines.length
  let blank := (lines.filter (fun l => pyStrip l == "")).length
  let comment := (lines.filter (fun l => (pyStrip l).startsWith "#")).length
  let logical := loc - blank - comment
  let ratio : ℝ := if 0 < loc then (comment : ℝ) / (loc : ℝ) else 0
  let base : CodeMetrics :=
    { lines_of_code := loc, blank_lines := blank, comment_lines := comment,
      logical_lines_of_code := logical, comment_ratio := ratio }
  match parsed with
  | some (tree, vol) =>
    { base with
      cyclomatic_complexity := _calculate_cyclomatic_complexity tree,
      halstead_volume := some vol }
  | none => base

/-- `CodeAnalyzer.analyze_code` (lines 1039-1085): the metrics above with
`maintainability_index` filled in last (line 1083). -/
noncomputable def analyze_code (code : String) (parsed : Option (PyAst × ℝ)) :
    CodeMetrics :=
  { analyze_code_pre code parsed with
    maintainability_index :=
      _calculate_maintainability_index (analyze_code_pre code parsed) }

/-- The maintainability formula as written in the specification:
`clamp(0, 100, 171 - 5.2*ln(volume) - 0.23*cyclomatic - 16.2*ln(logical)
+ 50*commentRatio)` with each logarithm term omitted when its argument is
not positive (a missing Halstead dict contributes no volume term). -/
noncomputable def maintainabilitySpec (m : CodeMetrics) : ℝ :=
  let volume : ℝ := m.halstead_volume.getD 0
  let volTerm : ℝ := if 0 < volume then 5.2 * Real.log volume else 0
  let locTerm : ℝ :=
    if 0 < m.logical_lines_of_code then
      16.2 * Real.log (m.logical_lines_of_code : ℝ)
    else 0
  max 0 (min 100
    (171 - volTerm - 0.23 * (m.cyclomatic_complexity : ℝ) - locTerm +
      50 * m.comment_ratio))

/-! ## Persistent nodes and state round-trip
(`PersistentCodeNode`, lines 1693-1777; `save_state`/`load_state`,
lines 2385-2472)

`save_state` serializes every node through `to_dict` into a JSON state
dict; `load_state` rebuilds each node through `from_dict`.  JSON encoding
of the state dict is assumed faithful (numbers, strings, lists and nulls
round-trip), so the embedding works directly on the dict shapes.  The
`metrics` payload is carried through `to_dict`/`from_dict` opaquely here:
`from_dict` rebuilds some metrics value in every case and can only raise
on a missing required key, never because of the metrics payload, and no
claim reads the restored metrics.  `ast_node` is dropped by `to_dict`
exactly as in the source (it is simply not serialized). -/

/-- The persisted node dataclass, restricted to the serialized fields.
`embedding` is a numeric vector (`np.ndarray` ↦ `List ℚ`). -/
structure PersistentCodeNode where
  code_id : String
  code_segment : String
  code_hash : String
  dependencies : List String
  purpose : String
  embedding : Option (List ℚ)
  creation_timestamp : ℚ
  update_timestamp : ℚ
  file_path : Option String := none
  start_line : Option ℕ := none
  end_line : Option ℕ := none
  parent_node_id : Option String := none
  child_node_ids : List String := []
  tags : List String := []
  documentation : Option String := none
  version : String := "3.1"
  deriving DecidableEq, Repr

/-- The dictionary `PersistentCodeNode.to_dict` produces (lines
1716-1740).  Every required key of `from_dict` is always present in it. -/
structure NodeDict where
  code_id : String
  code_segment : String
  code_hash : String
  dependencies : List String
  purpose : String
  embedding : Option (List ℚ)
  creation_timestamp : ℚ
  update_timestamp : ℚ
  file_path : Option String
  start_line : Option ℕ
  end_line : Option ℕ
  parent_node_id : Option String
  child_node_ids : List String
  tags : List String
  documentation : Option String
  version : String
  deriving DecidableEq, Repr

/-- `PersistentCodeNode.to_dict` (lines 1716-1740). -/
def PersistentCodeNode.to_dict (n : PersistentCodeNode) : NodeDict :=
  { code_id := n.code_id, code_segment := n.code_segment,
    code_hash := n.code_hash, dependencies := n.dependencies,
    purpose := n.purpose, embedding := n.embedding,
    creation_timestamp := n.creation_timestamp,
    update_timestamp := n.update_timestamp, file_path := n.file_path,
    start_line := n.start_line, end_line := n.end_line,
    parent_node_id := n.parent_node_id,
    child_node_ids := n.child_node_ids, tags := n.tags,
    documentation := n.documentation, version := n.version }

/-- `PersistentCodeNode.from_dict` (lines 1742-1777).  The embedding is
rebuilt through `np.array(data["embedding"]) if data.get("embedding")
else None`: an empty stored list is falsy and becomes `None`. -/
def PersistentCodeNode.from_dict (d : NodeDict) : PersistentCodeNode :=
  { code_id := d.code_id, code_segment := d.code_segment,
    code_hash := d.code_hash, dependencies := d.dependencies,
    purpose := d.purpose,
    embedding := match d.embedding with
      | some [] => none
      | e => e,
    creation_timestamp := d.creation_timestamp,
    update_timestamp := d.update_timestamp, file_path := d.file_path,
    start_line := d.start_line, end_line := d.end_line,
    parent_node_id := d.parent_node_id,
    child_node_ids := d.child_node_ids, tags := d.tags,
    documentation := d.documentation, version := d.version }

/-- The node table of the saved `GraphState`: `code_id ↦ node dict`
(`save_state`, line 2396). -/
def saveNodes (nodes : List (String × PersistentCodeNode)) :
    List (String × NodeDict) :=
  nodes.map (fun p => (p.1, p.2.to_dict))

/-- The node-restoring loop of `load_state` (lines 2458-2463): each record
is rebuilt through `from_dict`; a record whose reconstruction raises is
skipped and logged.  On a state dict produced by `save_state` every
required key is present by construction, so `from_dict` is total here and
no record is skipped. -/
def loadNodes (saved : List (String × NodeDict)) :
    List (String × PersistentCodeNode) :=
  saved.map (fun p => (p.1, PersistentCodeNode.from_dict p.2))

/-! ## Project run orchestration
(`EnterpriseSRPKGraph.analyze_project`, lines 1806-1895;
`_analyze_file_wrapper`, lines 1936-1978; `_generate_summary`,
lines 2301-2338)

The per-run state a claim can observe is the node table, the file
registry and the robust analyzer error log; the edge table is only ever
read by `_generate_summary` after the point where it raises (see below),
and by no claim, so it is not carried.  Node construction inside
`_analyze_file` (metrics scoring, embeddings, test generation, nested
element extraction) affects no claim beyond the produced node list, so
each file run carries the file node `_create_node` would build and the
element nodes `_extract_code_elements` would extract as environment
data; `_analyze_file` always prepends the file node on a successful
parse (lines 1999-2016), so a successful file contributes at least one
node.

`_generate_summary` starts by returning `{}` for an empty node table
(line 2303).  With a nonempty table it runs the accumulation loops and
then evaluates `[n.calculate_quality_score() for n in self.nodes.values()]`
(line 2321) — but `calculate_quality_score` is defined nowhere in the
repository (the `PersistentCodeNode` dataclass, lines 1693-1777, has only
`to_dict` and `from_dict`), so the first node raises `AttributeError`,
which propagates out of `analyze_project` (line 1887 is outside every
`try`).  The aggregate dict on lines 2324-2338 is therefore unreachable
code; its field set is recorded by `AggregateBlock` below. -/

/-- The aggregate block `_generate_summary` would return (lines
2324-2338).  Unreachable in the source: building it is preceded by the
`calculate_quality_score` calls, which raise. -/
structure AggregateBlock where
  total_files : ℕ
  total_nodes : ℕ
  total_edges : ℕ
  total_loc : ℕ
  average_complexity : ℚ
  average_quality_score : ℚ
  security_issue_count : ℕ
  code_smell_count : ℕ
  unique_dependencies : ℕ
  deriving DecidableEq, Repr

/-- Run-observable graph state. -/
structure GraphState where
  nodes : List (String × PersistentCodeNode)
  file_registry : List (String × List String)
  analyzer_errors : List ErrorReport
  deriving DecidableEq, Repr

/-- The empty graph `EnterpriseSRPKGraph.__init__` starts with. -/
def GraphState.empty : GraphState :=
  { nodes := [], file_registry := [], analyzer_errors := [] }

/-- The serialized `GraphState` dict `save_state` writes (lines
2392-2401), restricted to the parts the round-trip claim observes.
Backup rotation, gzip compression and JSON rendering only affect the
container, not the reloaded values.  The bounded metrics history and the
analyzer error summary are serialized too but never restored into nodes. -/
structure SavedState where
  version : String
  nodes : List (String × NodeDict)
  file_registry : List (String × List String)
  deriving DecidableEq, Repr

/-- `save_state` (lines 2385-2411). -/
def save_state (g : GraphState) : SavedState :=
  { version := "3.1", nodes := saveNodes g.nodes,
    file_registry := g.file_registry }

/-- `load_state` (lines 2437-2472): version mismatch only logs; nodes are
rebuilt one by one through `from_dict` (`loadNodes`); the file registry is
restored; the analyzer error log of the living object is untouched. -/
def load_state (g : GraphState) (s : SavedState) : GraphState :=
  { nodes := loadNodes s.nodes, file_registry := s.file_registry,
    analyzer_errors := g.analyzer_errors }

/-- `self.nodes[node.code_id] = node`: dict insert, replacing any node
already stored under the same id. -/
def GraphState.insertNode (g : GraphState) (n : PersistentCodeNode) :
    GraphState :=
  if (g.nodes.find? (fun p => p.1 == n.code_id)).isSome then
    { g with nodes := g.nodes.map (fun p =>
        if p.1 == n.code_id then (p.1, n) else p) }
  else
    { g with nodes := g.nodes ++ [(n.code_id, n)] }

/-- `self.file_registry[str(file_path)] = ids`: dict insert. -/
def GraphState.registerFile (g : GraphState) (path : String)
    (ids : List String) : GraphState :=
  if (g.file_registry.find? (fun p => p.1 == path)).isSome then
    { g with file_registry := g.file_registry.map (fun p =>
        if p.1 == path then (p.1, ids) else p) }
  else
    { g with file_registry := g.file_registry ++ [(path, ids)] }

/-- `_generate_summary` (lines 2301-2338): `{}` for an empty node table —
modelled as `.ok none` — and otherwise the `AttributeError` raised by the
undefined `calculate_quality_score` on the first node of the quality list
comprehension. -/
def _generate_summary (g : GraphState) :
    Except String (Option AggregateBlock) :=
  if g.nodes.isEmpty then .ok none
  else .error "AttributeError"

/-- Environment of one file inside a project run. -/
structure FileRun where
  env : FileEnv
  /-- Result of the cache lookup by path+hash in `_analyze_file_wrapper`
  (lines 1940-1956): `some nodes` is a hit carrying the previously
  materialized node dicts, `none` a miss. -/
  cached : Option (List PersistentCodeNode)
  /-- The file-level node `_create_node` builds on a successful parse
  (lines 2003-2011). -/
  fileNode : PersistentCodeNode
  /-- The element nodes `_extract_code_elements` extracts (line 2015). -/
  elements : List PersistentCodeNode
  /-- Whether `future.result(timeout=...)` raises `FutureTimeoutError`
  for this file in the parallel collection loop (lines 1836-1849). -/
  loop_timeout : Bool

/-- The counters `analyze_project` accumulates (lines 1809-1818). -/
structure RunCounters where
  files_analyzed : ℕ := 0
  files_failed : ℕ := 0
  nodes_created : ℕ := 0
  edges_created : ℕ := 0
  errors : List (String × String) := []
  deriving DecidableEq, Repr

/-- `_analyze_file` (lines 1989-2021): run the robust analyzer; on failure
return no nodes, on success build the file node, extract the element
nodes, store them all in the node table and register the file. -/
def _analyze_file (cfg : AnalyzerConfig) (g : GraphState) (fr : FileRun) :
    List PersistentCodeNode × GraphState :=
  let (res, reps) := analyze_file_safe cfg fr.env
  let g := { g with analyzer_errors := g.analyzer_errors ++ reps }
  match res with
  | none => ([], g)
  | some _ =>
    let g := g.insertNode fr.fileNode
    let g := fr.elements.foldl (fun acc n => acc.insertNode n) g
    let ns := fr.fileNode :: fr.elements
    let g := g.registerFile fr.env.path (ns.map (fun n => n.code_id))
    (ns, g)

/-- `_analyze_file_wrapper` (lines 1936-1978): a cache hit restores the
cached nodes and reports their count; otherwise the file is analyzed and
its nodes cached; `None` is returned when analysis produced no nodes.
Every exception inside the wrapper is swallowed into `None`.  The result
dict is the `nodes_created`/`edges_created` pair. -/
def _analyze_file_wrapper (cfg : AnalyzerConfig) (g : GraphState)
    (fr : FileRun) : Option (ℕ × ℕ) × GraphState :=
  match fr.cached with
  | some cachedNodes =>
    let g := cachedNodes.foldl (fun acc n => acc.insertNode n) g
    let g := g.registerFile fr.env.path
      (cachedNodes.map (fun n => n.code_id))
    (some (cachedNodes.length, 0), g)
  | none =>
    let (ns, g) := _analyze_file cfg g fr
    match ns with
    | [] => (none, g)
    | _ => (some (ns.length, 0), g)

/-- The result-collection loop of `analyze_project` (lines 1826-1874),
covering both execution modes: a per-file timeout raises
`FutureTimeoutError` out of `future.result` and increments
`files_failed`; otherwise the wrapper result, when truthy, increments
`files_analyzed` and the node/edge counters, and a `None` wrapper result
increments nothing.  (The wrapper itself swallows every exception, so the
generic `except Exception` arm of the loop can only fire for timeouts.) -/
def runLoop (cfg : AnalyzerConfig) (g : GraphState) (files : List FileRun) :
    RunCounters × GraphState :=
  files.foldl (fun (acc : RunCounters × GraphState) fr =>
    let (c, g) := acc
    if fr.loop_timeout then
      ({ c with files_failed := c.files_failed + 1,
                errors := c.errors ++ [(fr.env.path, "Timeout")] }, g)
    else
      match _analyze_file_wrapper cfg g fr with
      | (some (nc, ec), g) =>
        ({ c with files_analyzed := c.files_analyzed + 1,
                  nodes_created := c.nodes_created + nc,
                  edges_created := c.edges_created + ec }, g)
      | (none, g) => (c, g)) ({}, g)

/-- The run-results dict `analyze_project` returns (lines 1809-1895),
with `summary` as `_generate_summary` leaves it: `none` is the empty
dict. -/
structure RunResults where
  counters : RunCounters
  summary : Option AggregateBlock
  deriving DecidableEq, Repr

/-- `analyze_project` (lines 1806-1895): run the collection loop over the
enumerated files, then the dependency pass (which never raises: its body
is wrapped in a per-node `try/except: pass` and only appends edges, which
no later reachable code reads), then `_generate_summary`.  An exception
escaping the summary step propagates to the caller — there is no handler
between line 1887 and the caller. -/
def analyze_project (cfg : AnalyzerConfig) (g : GraphState)
    (files : List FileRun) : Except String (RunResults × GraphState) :=
  let (c, g1) := runLoop cfg g files
  match _generate_summary g1 with
  | .ok s => .ok ({ counters := c, summary := s }, g1)
  | .error e => .error e

/-! ## Concrete sample inputs

Small concrete files and nodes used to evaluate the run pipeline at
specific project shapes. -/

/-- A minimal concrete node (the file node `_create_node` would build). -/
def sampleNode (id : String) : PersistentCodeNode :=
  { code_id := id, code_segment := "x = 1", code_hash := "h" ++ id,
    dependencies := [], purpose := "File: " ++ id, embedding := none,
    creation_timestamp := 0, update_timestamp := 0 }

/-- A file whose analysis succeeds and contributes one file node. -/
def okFileRun (p id : String) : FileRun :=
  { env :=
      { path := p, size_mb := 1, mem_exceeded_pre := false,
        mem_exceeded_post := false, read_outcome := .ok ["x = 1"],
        raw_lines := ["x = 1"], parse := fun _ => .success (.other .nil),
        parse_times_out := false },
    cached := none, fileNode := sampleNode id, elements := [],
    loop_timeout := false }

/-- A file whose parse fails with a syntax error that also defeats the
line-by-line recovery (every reconstruction fails to parse). -/
def failFileRun (p : String) : FileRun :=
  { env :=
      { path := p, size_mb := 1, mem_exceeded_pre := false,
        mem_exceeded_post := false, read_outcome := .ok ["def f("],
        raw_lines := ["def f("], parse := fun _ => .synError 1 1 "def f(",
        parse_times_out := false },
    cached := none, fileNode := sampleNode "unused", elements := [],
    loop_timeout := false }

/-- A file exceeding the 10 MB size ceiling. -/
def oversizedFileRun (p : String) : FileRun :=
  { env :=
      { path := p, size_mb := 100, mem_exceeded_pre := false,
        mem_exceeded_post := false, read_outcome := .ok [""],
        raw_lines := [""], parse := fun _ => .success (.other .nil),
        parse_times_out := false },
    cached := none, fileNode := sampleNode "unused2", elements := [],
    loop_timeout := false }

/-- A file whose worker future exceeds the collection-loop timeout. -/
def timeoutFileRun (p : String) : FileRun :=
  { env :=
      { path := p, size_mb := 1, mem_exceeded_pre := false,
        mem_exceeded_post := false, read_outcome := .ok ["x = 1"],
        raw_lines := ["x = 1"], parse := fun _ => .success (.other .nil),
        parse_times_out := false },
    cached := none, fileNode := sampleNode "unused3", elements := [],
    loop_timeout := true }

/-! ## Cache store lemmas -/

theorem find?_filter_ne {α : Type} (l : List (String × CacheFile α))
    (k : String) :
    (l.filter (fun p => p.1 != k)).find? (fun p => p.1 == k) = none := by
  induction l with
  | nil => rfl
  | cons hd tl ih =>
    rw [List.filter_cons]
    by_cases h : hd.1 = k
    · simp [h, ih]
    · have hb : (hd.1 != k) = true := by simp [bne_iff_ne, h]
      rw [if_pos hb, List.find?_cons_of_neg _ (by simpa using h)]
      exact ih

theorem lookup_write {α : Type} (s : CacheState α) (p : String)
    (f : CacheFile α) : (s.write p f).lookup p = some f := by
  unfold CacheState.write CacheState.lookup
  simp only [List.find?_append, find?_filter_ne, Option.none_or]
  simp [List.find?_cons]

theorem sum_size_filter_le {α : Type} (l : List (String × CacheFile α))
    (q : String × CacheFile α → Bool) :
    ((l.filter q).map (fun p => p.2.size)).sum ≤
      (l.map (fun p => p.2.size)).sum := by
  induction l with
  | nil => simp
  | cons hd tl ih =>
    by_cases h : q hd = true
    · simpa [List.filter_cons, h] using ih
    · simp only [List.filter_cons, h, if_false, Bool.false_eq_true,
        List.map_cons, List.sum_cons]
      omega

theorem enforce_of_le {α : Type} (s : CacheState α)
    (h : s.totalSize ≤ s.max_size_bytes) : _enforce_size_limit s = s := by
  unfold _enforce_size_limit
  cases s.enabled <;> simp [h]

theorem totalSize_write {α : Type} (s : CacheState α) (p : String)
    (f : CacheFile α) :
    (s.write p f).totalSize ≤ s.totalSize + f.size := by
  unfold CacheState.write CacheState.totalSize
  simp only [List.map_append, List.sum_append, List.map_cons,
    List.map_nil, List.sum_cons, List.sum_nil]
  have := sum_size_filter_le s.files (fun p => p.1 != p.1)
  have h1 := sum_size_filter_le s.files (fun q => q.1 != p)
  omega

/-- On an enabled cache, `set` whose write keeps the directory within the
size cap leaves exactly the written entry retrievable at the key. -/
theorem set_lookup {α : Type} (s : CacheState α) (k : String) (v : α)
    (h : Option String) (now : ℚ) (sz : ℕ) (hen : s.enabled = true)
    (hsz : s.totalSize + sz ≤ s.max_size_bytes) :
    (CacheManager.set s k v h now sz).lookup (_get_cache_path k) =
      some ⟨.good ⟨v, now, h, "3.1"⟩, now, sz⟩ ∧
    (CacheManager.set s k v h now sz).enabled = true := by
  unfold CacheManager.set
  simp only [hen, Bool.not_true, Bool.false_eq_true, if_false]
  set s1 := s.write (_get_cache_path k)
    ⟨.good ⟨v, now, h, "3.1"⟩, now, sz⟩ with hs1
  have hmax : s1.max_size_bytes = s.max_size_bytes := rfl
  have hen1 : s1.enabled = s.enabled := rfl
  have htot : s1.totalSize ≤ s.max_size_bytes := by
    have := totalSize_write s (_get_cache_path k)
      ⟨.good ⟨v, now, h, "3.1"⟩, now, sz⟩
    simp only [hs1] at *
    omega
  rw [enforce_of_le s1 (by rw [hmax]; exact htot)]
  exact ⟨lookup_write s _ _, by rw [hen1, hen]⟩

/-- C4 (amended): with caching enabled and the written entry fitting
within the size cap together with the existing directory contents (so the
post-write sweep deletes nothing), `set(k, v, h)` followed by `get(k, h)`
returns `v`. -/
theorem cache_set_then_get {α : Type} (s : CacheState α) (k : String)
    (v : α) (h : Option String) (now : ℚ) (sz : ℕ)
    (hen : s.enabled = true)
    (hsz : s.totalSize + sz ≤ s.max_size_bytes) :
    (CacheManager.get (CacheManager.set s k v h now sz) k h).1 = some v := by
  obtain ⟨hlk, hen1⟩ := set_lookup s k v h now sz hen hsz
  unfold CacheManager.get
  simp only [hen1, Bool.not_true, Bool.false_eq_true, if_false, hlk]
  simp [bne_self_eq_false]

/-- C4, claim as frozen, refuted: on an enabled cache with a 10-byte size
cap, `set` of an entry whose serialized form occupies 20 bytes is evicted
by the post-write sweep, and the immediately following `get` with the same
hash misses. -/
theorem cache_set_then_get_cex :
    (CacheManager.get
      (CacheManager.set (⟨true, 10, []⟩ : CacheState ℕ) "k" 7 (some "h") 0 20)
      "k" (some "h")).1 = none := by decide

/-- Witness for `cache_set_then_get` at a concrete input. -/
theorem cache_set_then_get_witness :
    (CacheManager.get
      (CacheManager.set (⟨true, 100, []⟩ : CacheState ℕ) "k" 7 (some "abc") 0 10)
      "k" (some "abc")).1 = some 7 :=
  cache_set_then_get (⟨true, 100, []⟩ : CacheState ℕ) "k" 7 (some "abc") 0 10
    (by decide) (by decide)

/-- Shared helper: the three failure branches of `CacheManager.get` on a
stored entry, derived once from the definition. -/
theorem get_branch_cases {α : Type} (s : CacheState α)
    (key : String) (fh : Option String) (file : CacheFile α)
    (hen : s.enabled = true)
    (hlk : s.lookup (_get_cache_path key) = some file) :
    (∀ e : CacheEntry α, file.content = .good e → pyTruthyStr fh = true →
      e.file_hash ≠ fh →
      CacheManager.get s key fh = (none, s.delete (_get_cache_path key))) ∧
    (∀ kind, file.content = .corrupt kind → kind ≠ .otherError →
      CacheManager.get s key fh = (none, s.delete (_get_cache_path key))) ∧
    (file.content = .corrupt .otherError →
      CacheManager.get s key fh = (none, s)) := by
  unfold CacheManager.get
  simp only [hen, Bool.not_true, Bool.false_eq_true, if_false, hlk]
  refine ⟨?_, ?_, ?_⟩
  · intro e hc ht hne
    simp [hc, ht, bne_iff_ne, hne]
  · intro kind hc hne
    cases kind with
    | pickleError => simp [hc]
    | eofError => simp [hc]
    | badGzipFile => simp [hc]
    | otherError => exact absurd rfl hne
  · intro hc
    simp [hc]

/-- C5 (amended): `get` on a stored entry never raises and behaves by
cases: a truthy expected hash disagreeing with the stored hash deletes
the entry and misses; a deserialization failure of one of the caught
kinds (`pickle.PickleError`, `EOFError`, `gzip.BadGzipFile`) deletes the
entry and misses; any other load failure misses while leaving the entry
in place. -/
theorem cache_get_failure_cases {α : Type} (s : CacheState α)
    (key : String) (fh : Option String) (file : CacheFile α)
    (hen : s.enabled = true)
    (hlk : s.lookup (_get_cache_path key) = some file) :
    (∀ e : CacheEntry α, file.content = .good e → pyTruthyStr fh = true →
      e.file_hash ≠ fh →
      CacheManager.get s key fh = (none, s.delete (_get_cache_path key))) ∧
    (∀ kind, file.content = .corrupt kind → kind ≠ .otherError →
      CacheManager.get s key fh = (none, s.delete (_get_cache_path key))) ∧
    (file.content = .corrupt .otherError →
      CacheManager.get s key fh = (none, s)) :=
  get_branch_cases s key fh file hen hlk

/-- C5, claim as frozen, refuted: a stored entry whose deserialization
fails with an exception outside the caught tuple (for example an
`AttributeError` raised while unpickling) returns a miss but is NOT
deleted — the state is unchanged and the entry is still present. -/
theorem cache_get_failure_cases_cex :
    CacheManager.get
        (⟨true, 1000, [("k", ⟨.corrupt .otherError, 0, 1⟩)]⟩ : CacheState ℕ)
        "k" none =
      (none, (⟨true, 1000, [("k", ⟨.corrupt .otherError, 0, 1⟩)]⟩ : CacheState ℕ)) ∧
    (⟨true, 1000, [("k", ⟨.corrupt .otherError, 0, 1⟩)]⟩ : CacheState ℕ).lookup
        "k" = some ⟨.corrupt .otherError, 0, 1⟩ := by decide

/-- Witness for `cache_get_failure_cases` at a concrete input (the
pickle-corruption arm). -/
theorem cache_get_failure_cases_witness :
    CacheManager.get
        (⟨true, 1000, [("k", ⟨.corrupt .pickleError, 0, 1⟩)]⟩ : CacheState ℕ)
        "k" none =
      (none,
        (⟨true, 1000, [("k", ⟨.corrupt .pickleError, 0, 1⟩)]⟩ :
          CacheState ℕ).delete "k") :=
  (cache_get_failure_cases
      (⟨true, 1000, [("k", ⟨.corrupt .pickleError, 0, 1⟩)]⟩ : CacheState ℕ)
      "k" none ⟨.corrupt .pickleError, 0, 1⟩ (by decide)
      (by decide)).2.1 .pickleError rfl (by decide)

/-- C10 (amended): an entry stored by `set(key, value)` without a hash can
never satisfy a lookup with a non-EMPTY expected hash: `get(key, h)` with
`h ≠ ""` deletes the entry and misses.  (The non-eviction proviso matches
`cache_set_then_get`.) -/
theorem cache_set_no_hash_get {α : Type} (s : CacheState α) (k : String)
    (v : α) (now : ℚ) (sz : ℕ) (h : String) (hen : s.enabled = true)
    (hsz : s.totalSize + sz ≤ s.max_size_bytes) (hh : h ≠ "") :
    CacheManager.get (CacheManager.set s k v none now sz) k (some h) =
      (none,
        (CacheManager.set s k v none now sz).delete (_get_cache_path k)) := by
  obtain ⟨hlk, hen1⟩ := set_lookup s k v none now sz hen hsz
  have := (get_branch_cases (CacheManager.set s k v none now sz) k
    (some h) ⟨.good ⟨v, now, none, "3.1"⟩, now, sz⟩ hen1 hlk).1
  exact this ⟨v, now, none, "3.1"⟩ rfl (by simp [pyTruthyStr, hh])
    (by simp)

/-- C10, claim as frozen, refuted: with the non-None expected hash `""`
(falsy in Python), `get` skips the hash validation entirely and returns
the value stored without a hash, deleting nothing. -/
theorem cache_set_no_hash_get_cex :
    CacheManager.get
        (CacheManager.set (⟨true, 100, []⟩ : CacheState ℕ) "k" 5 none 0 1)
        "k" (some "") =
      (some 5,
        CacheManager.set (⟨true, 100, []⟩ : CacheState ℕ) "k" 5 none 0 1) := by
  decide

/-- Witness for `cache_set_no_hash_get` at a concrete input. -/
theorem cache_set_no_hash_get_witness :
    CacheManager.get
        (CacheManager.set (⟨true, 100, []⟩ : CacheState ℕ) "k" 5 none 0 1)
        "k" (some "x") =
      (none,
        (CacheManager.set (⟨true, 100, []⟩ : CacheState ℕ) "k" 5 none 0 1).delete
          (_get_cache_path "k")) :=
  cache_set_no_hash_get (⟨true, 100, []⟩ : CacheState ℕ) "k" 5 0 1 "x"
    (by decide) (by decide) (by decide)

/-! ## Cyclomatic complexity lemmas -/

theorem pyAstList_length_nonneg : ∀ l : PyAstList, 0 ≤ PyAstList.length l
  | .nil => by rw [PyAstList.length]
  | .cons hd tl => by
    rw [PyAstList.length]
    have := pyAstList_length_nonneg tl
    omega

mutual

theorem cycWalk_split (t : PyAst) :
    cycWalk t = branchCount t + boolOpExtra t + compIfCount t := by
  cases t with
  | ifStmt tst b e =>
    have h1 := cycWalk_split tst
    have h2 := cycWalkList_split b
    have h3 := cycWalkList_split e
    simp only [cycWalk, branchCount, boolOpExtra, compIfCount]
    omega
  | whileStmt tst b e =>
    have h1 := cycWalk_split tst
    have h2 := cycWalkList_split b
    have h3 := cycWalkList_split e
    simp only [cycWalk, branchCount, boolOpExtra, compIfCount]
    omega
  | forStmt tg it b e =>
    have h1 := cycWalk_split tg
    have h2 := cycWalk_split it
    have h3 := cycWalkList_split b
    have h4 := cycWalkList_split e
    simp only [cycWalk, branchCount, boolOpExtra, compIfCount]
    omega
  | exceptHandler b =>
    have h1 := cycWalkList_split b
    simp only [cycWalk, branchCount, boolOpExtra, compIfCount]
    omega
  | withStmt i b =>
    have h1 := cycWalkList_split i
    have h2 := cycWalkList_split b
    simp only [cycWalk, branchCount, boolOpExtra, compIfCount]
    omega
  | assertStmt tst =>
    have h1 := cycWalk_split tst
    simp only [cycWalk, branchCount, boolOpExtra, compIfCount]
    omega
  | raiseStmt e =>
    have h1 := cycWalkList_split e
    simp only [cycWalk, branchCount, boolOpExtra, compIfCount]
    omega
  | boolOp vs =>
    have h1 := cycWalkList_split vs
    simp only [cycWalk, branchCount, boolOpExtra, compIfCount]
    omega
  | compClause ifs rest =>
    have h1 := cycWalkList_split ifs
    have h2 := cycWalkList_split rest
    simp only [cycWalk, branchCount, boolOpExtra, compIfCount]
    omega
  | other cs =>
    have h1 := cycWalkList_split cs
    simp only [cycWalk, branchCount, boolOpExtra, compIfCount]
    omega

theorem cycWalkList_split (l : PyAstList) :
    cycWalkList l =
      branchCountList l + boolOpExtraList l + compIfCountList l := by
  cases l with
  | nil =>
    simp only [cycWalkList, branchCountList, boolOpExtraList, compIfCountList]
    omega
  | cons hd tl =>
    have h1 := cycWalk_split hd
    have h2 := cycWalkList_split tl
    simp only [cycWalkList, branchCountList, boolOpExtraList, compIfCountList]
    omega

end

mutual

theorem cycWalk_nonneg (t : PyAst) (h : wfAst t = true) : 0 ≤ cycWalk t := by
  cases t with
  | ifStmt tst b e =>
    rw [wfAst] at h
    simp only [Bool.and_eq_true] at h
    have h1 := cycWalk_nonneg tst h.1.1
    have h2 := cycWalkList_nonneg b h.1.2
    have h3 := cycWalkList_nonneg e h.2
    rw [cycWalk]; omega
  | whileStmt tst b e =>
    rw [wfAst] at h
    simp only [Bool.and_eq_true] at h
    have h1 := cycWalk_nonneg tst h.1.1
    have h2 := cycWalkList_nonneg b h.1.2
    have h3 := cycWalkList_nonneg e h.2
    rw [cycWalk]; omega
  | forStmt tg it b e =>
    rw [wfAst] at h
    simp only [Bool.and_eq_true] at h
    have h1 := cycWalk_nonneg tg h.1.1.1
    have h2 := cycWalk_nonneg it h.1.1.2
    have h3 := cycWalkList_nonneg b h.1.2
    have h4 := cycWalkList_nonneg e h.2
    rw [cycWalk]; omega
  | exceptHandler b =>
    rw [wfAst] at h
    have h1 := cycWalkList_nonneg b h
    rw [cycWalk]; omega
  | withStmt i b =>
    rw [wfAst] at h
    simp only [Bool.and_eq_true] at h
    have h1 := cycWalkList_nonneg i h.1
    have h2 := cycWalkList_nonneg b h.2
    rw [cycWalk]; omega
  | assertStmt tst =>
    rw [wfAst] at h
    have h1 := cycWalk_nonneg tst h
    rw [cycWalk]; omega
  | raiseStmt e =>
    rw [wfAst] at h
    have h1 := cycWalkList_nonneg e h
    rw [cycWalk]; omega
  | boolOp vs =>
    rw [wfAst] at h
    simp only [Bool.and_eq_true, decide_eq_true_eq] at h
    have h1 := cycWalkList_nonneg vs h.2
    rw [cycWalk]; omega
  | compClause ifs rest =>
    rw [wfAst] at h
    simp only [Bool.and_eq_true] at h
    have h1 := cycWalkList_nonneg ifs h.1
    have h2 := cycWalkList_nonneg rest h.2
    have h3 := pyAstList_length_nonneg ifs
    rw [cycWalk]; omega
  | other cs =>
    rw [wfAst] at h
    have h1 := cycWalkList_nonneg cs h
    rw [cycWalk]; omega

theorem cycWalkList_nonneg (l : PyAstList) (h : wfAstList l = true) :
    0 ≤ cycWalkList l := by
  cases l with
  | nil => rw [cycWalkList]
  | cons hd tl =>
    rw [wfAstList] at h
    simp only [Bool.and_eq_true] at h
    have h1 := cycWalk_nonneg hd h.1
    have h2 := cycWalkList_nonneg tl h.2
    rw [cycWalkList]; omega

end

/-- C3: on every well-formed tree (as produced by `ast.parse` on
syntactically valid input), `_calculate_cyclomatic_complexity` equals 1
plus one per branch construct, plus (operand count − 1) per short-circuit
boolean expression, plus one per comprehension filter clause, and is
therefore at least 1. -/
theorem cyclomatic_complexity_formula (t : PyAst) (h : wfAst t = true) :
    _calculate_cyclomatic_complexity t =
      1 + branchCount t + boolOpExtra t + compIfCount t ∧
    1 ≤ _calculate_cyclomatic_complexity t := by
  unfold _calculate_cyclomatic_complexity
  have h1 := cycWalk_split t
  have h2 := cycWalk_nonneg t h
  omega

/-- Witness for `cyclomatic_complexity_formula` at a concrete tree: a
conditional whose test is a two-operand boolean expression and whose body
raises. -/
theorem cyclomatic_complexity_formula_witness :
    wfAst (.ifStmt (.boolOp (.cons (.other .nil) (.cons (.other .nil) .nil)))
        (.cons (.raiseStmt .nil) .nil) .nil) = true ∧
    _calculate_cyclomatic_complexity
        (.ifStmt (.boolOp (.cons (.other .nil) (.cons (.other .nil) .nil)))
          (.cons (.raiseStmt .nil) .nil) .nil) = 4 :=
  ⟨by decide,
    by
      have h := cyclomatic_complexity_formula
        (.ifStmt (.boolOp (.cons (.other .nil) (.cons (.other .nil) .nil)))
          (.cons (.raiseStmt .nil) .nil) .nil) (by decide)
      rw [h.1]; decide⟩

/-! ## Maintainability index lemmas -/

theorem mi_eq_spec (m : CodeMetrics) :
    _calculate_maintainability_index m = maintainabilitySpec m := by
  have hmaxpos : 0 < max m.logical_lines_of_code 1 := by omega
  have hvol : (if 0 < m.halstead_volume.getD 1 then
      (171 : ℝ) - 5.2 * Real.log (m.halstead_volume.getD 1) else 171) =
      171 - (if 0 < m.halstead_volume.getD 0 then
        (5.2 : ℝ) * Real.log (m.halstead_volume.getD 0) else 0) := by
    cases m.halstead_volume with
    | none => simp [Real.log_one]
    | some v =>
      by_cases h : (0 : ℝ) < v <;> simp [h]
  have hloc : (16.2 : ℝ) *
      Real.log ((max m.logical_lines_of_code 1 : ℕ) : ℝ) =
      (if 0 < m.logical_lines_of_code then
        (16.2 : ℝ) * Real.log ((m.logical_lines_of_code : ℕ) : ℝ) else 0) := by
    rcases Nat.eq_zero_or_pos m.logical_lines_of_code with h0 | hpos
    · rw [h0]
      norm_num [Real.log_one]
    · have h1 : max m.logical_lines_of_code 1 = m.logical_lines_of_code := by
        omega
      rw [h1, if_pos hpos]
  simp only [_calculate_maintainability_index, maintainabilitySpec]
  rw [if_pos hmaxpos]
  congr 1
  congr 1
  rw [hvol, hloc]
  ring

theorem mi_bounds (m : CodeMetrics) :
    0 ≤ _calculate_maintainability_index m ∧
    _calculate_maintainability_index m ≤ 100 := by
  simp only [_calculate_maintainability_index]
  constructor
  · exact le_max_left 0 _
  · exact max_le (by norm_num) (min_le_left _ _)

/-- C2: for every input text and every parse outcome, `analyze_code`
returns a maintainability index equal to
`clamp(0, 100, 171 - 5.2 ln(volume) - 0.23 cyclomatic - 16.2 ln(logical)
+ 50 commentRatio)` with each logarithm term omitted when its argument is
not positive, and the returned index therefore always lies within
`[0, 100]`. -/
theorem analyze_code_maintainability (code : String)
    (parsed : Option (PyAst × ℝ)) :
    (analyze_code code parsed).maintainability_index =
      maintainabilitySpec (analyze_code code parsed) ∧
    0 ≤ (analyze_code code parsed).maintainability_index ∧
    (analyze_code code parsed).maintainability_index ≤ 100 := by
  have hproj : (analyze_code code parsed).maintainability_index =
      _calculate_maintainability_index (analyze_code_pre code parsed) := rfl
  have hspec : maintainabilitySpec (analyze_code code parsed) =
      maintainabilitySpec (analyze_code_pre code parsed) := rfl
  rw [hproj, hspec]
  exact ⟨mi_eq_spec _, (mi_bounds _).1, (mi_bounds _).2⟩

/-! ## Duplicate-block detector lemmas -/

theorem dupLoop_mono (lines : List String) (s : DupSmell) :
    ∀ (r : ℕ) (seen : List (String × ℕ)) (i : ℕ) (smells : List DupSmell),
      s ∈ smells → s ∈ dupLoop lines seen i r smells := by
  intro r
  induction r with
  | zero => intro seen i smells hs; rw [dupLoop]; exact hs
  | succ r ih =>
    intro seen i smells hs
    rw [dupLoop]
    cases hlk : seen.lookup (blockAt lines i) with
    | some first =>
      simp only [hlk]
      exact ih seen (i + 1) (smells ++ [dupSmell i first])
        (List.mem_append_left _ hs)
    | none =>
      simp only [hlk]
      exact ih _ (i + 1) smells hs

theorem lookup_seenAt_none (lines : List String) (B : String) :
    ∀ i : ℕ, (∀ k, k < i → blockAt lines k ≠ B) →
      (seenAt lines i).lookup B = none := by
  intro i
  induction i with
  | zero => intro _; rfl
  | succ i ih =>
    intro h
    have hi : blockAt lines i ≠ B := h i (Nat.lt_succ_self i)
    have htl := ih (fun k hk => h k (Nat.lt_succ_of_lt hk))
    rw [seenAt]
    cases hlk : ((seenAt lines i).lookup (blockAt lines i)).isSome with
    | true => simpa [hlk] using htl
    | false =>
      simp only [hlk, Bool.false_eq_true, if_false]
      rw [List.lookup_cons]
      have hne : (B == blockAt lines i) = false := by
        rw [beq_eq_false_iff_ne]
        intro h0
        exact hi h0.symm
      rw [hne]
      exact htl

theorem lookup_seenAt_first (lines : List String) (i0 : ℕ)
    (hfirst : ∀ k, k < i0 → blockAt lines k ≠ blockAt lines i0) :
    ∀ j : ℕ, i0 < j →
      (seenAt lines j).lookup (blockAt lines i0) = some (i0 + 1) := by
  intro j
  induction j with
  | zero => intro h; exact absurd h (Nat.not_lt_zero i0)
  | succ j ih =>
    intro hij
    rcases Nat.lt_succ_iff_lt_or_eq.mp hij with hlt | heq
    · have hj := ih hlt
      rw [seenAt]
      cases hlk : ((seenAt lines j).lookup (blockAt lines j)).isSome with
      | true => simpa [hlk] using hj
      | false =>
        simp only [hlk, Bool.false_eq_true, if_false]
        rw [List.lookup_cons]
        have hne : (blockAt lines i0 == blockAt lines j) = false := by
          rw [beq_eq_false_iff_ne]
          intro hBeq
          rw [← hBeq] at hlk
          rw [hj] at hlk
          simp at hlk
        rw [hne]
        exact hj
    · subst heq
      have hnone := lookup_seenAt_none lines (blockAt lines i0) i0 hfirst
      rw [seenAt]
      rw [hnone]
      simp only [Option.isSome_none, Bool.false_eq_true, if_false]
      rw [List.lookup_cons]
      simp

theorem dupLoop_seen_hits (lines : List String) :
    ∀ (r i : ℕ) (smells : List DupSmell) (j v : ℕ), i ≤ j → j < i + r →
      (seenAt lines j).lookup (blockAt lines j) = some v →
      dupSmell j v ∈ dupLoop lines (seenAt lines i) i r smells := by
  intro r
  induction r with
  | zero => intro i smells j v hij hjr _; omega
  | succ r ih =>
    intro i smells j v hij hjr hv
    rw [dupLoop]
    cases hlk : (seenAt lines i).lookup (blockAt lines i) with
    | some first =>
      simp only [hlk]
      have hseen : seenAt lines (i + 1) = seenAt lines i := by
        rw [seenAt]
        simp [hlk]
      by_cases hj : j = i
      · subst hj
        rw [hv] at hlk
        cases hlk
        exact dupLoop_mono lines _ r _ (j + 1) _
          (List.mem_append_right _ (List.mem_singleton_self _))
      · rw [← hseen]
        exact ih (i + 1) _ j v (by omega) (by omega) hv
    | none =>
      simp only [hlk]
      have hseen : seenAt lines (i + 1) =
          (blockAt lines i, i + 1) :: seenAt lines i := by
        rw [seenAt]
        simp [hlk]
      by_cases hj : j = i
      · subst hj
        rw [hv] at hlk
        cases hlk
      · rw [← hseen]
        exact ih (i + 1) _ j v (by omega) (by omega) hv

/-- C8 (amended): whenever two identical 5-line blocks start at 0-based
indices `i < j`, at least one line follows the later block
(`j + 6 ≤ len(lines)`, since the loop scans `range(len(lines) - 5)`), and
the earlier block is the first occurrence of its text, the detector
reports the later occurrence as a duplicate-code smell at 1-based line
`j + 1` tagged as a duplicate of the 1-based start line `i + 1` of the
earlier block — the first occurrence wins. -/
theorem duplicate_block_reported (lines : List String)
    (smells : List DupSmell) (i j : ℕ) (hij : i < j)
    (hlen : j + 6 ≤ lines.length)
    (heq : blockAt lines j = blockAt lines i)
    (hfirst : ∀ k, k < i → blockAt lines k ≠ blockAt lines i) :
    dupSmell j (i + 1) ∈ _detect_duplicate_code lines smells := by
  unfold _detect_duplicate_code
  have h1 := lookup_seenAt_first lines i hfirst j hij
  rw [← heq] at h1
  have h2 := dupLoop_seen_hits lines (lines.length - 5) 0 smells j (i + 1)
    (Nat.zero_le j) (by omega) h1
  exact h2

/-- C8, claim as frozen, refuted: in a 10-line file whose last five lines
repeat its first five, the later block starts at 0-based index 5, but
`range(len(lines) - 5) = range(5)` never scans index 5, so no duplicate
smell is reported at all. -/
theorem duplicate_block_reported_cex :
    blockAt ["l1", "l2", "l3", "l4", "l5", "l1", "l2", "l3", "l4", "l5"] 5 =
      blockAt ["l1", "l2", "l3", "l4", "l5", "l1", "l2", "l3", "l4", "l5"] 0 ∧
    _detect_duplicate_code
      ["l1", "l2", "l3", "l4", "l5", "l1", "l2", "l3", "l4", "l5"] [] = [] := by
  exact ⟨rfl, rfl⟩

/-- Witness for `duplicate_block_reported` at a concrete input: the same
repeated block with one extra trailing line, so the later block is
scanned. -/
theorem duplicate_block_reported_witness :
    dupSmell 5 1 ∈ _detect_duplicate_code
      ["l1", "l2", "l3", "l4", "l5", "l1", "l2", "l3", "l4", "l5", "l6"] [] :=
  duplicate_block_reported
    ["l1", "l2", "l3", "l4", "l5", "l1", "l2", "l3", "l4", "l5", "l6"] [] 0 5
    (by omega) (by decide) rfl (fun k hk => absurd hk (Nat.not_lt_zero k))

/-! ## Persistence round-trip -/

theorem from_dict_to_dict_hash (n : PersistentCodeNode) :
    (PersistentCodeNode.from_dict n.to_dict).code_hash = n.code_hash := rfl

/-- C9: a save followed by a load of the unmodified saved state yields a
graph with the same node count and, node for node, the same `code_hash`
(and the same node ids). -/
theorem save_load_roundtrip (g g0 : GraphState) :
    (load_state g0 (save_state g)).nodes.length = g.nodes.length ∧
    (load_state g0 (save_state g)).nodes.map
        (fun p => (p.1, p.2.code_hash)) =
      g.nodes.map (fun p => (p.1, p.2.code_hash)) := by
  constructor
  · simp [load_state, save_state, loadNodes, saveNodes]
  · simp only [load_state, save_state, loadNodes, saveNodes, List.map_map]
    apply List.map_congr_left
    intro p _
    exact congrArg (fun h => (p.1, h)) (from_dict_to_dict_hash p.2)

/-! ## Memory-failure handling in the robust analyzer -/

/-- C6 (amended): a memory-guard failure (the guard still exceeded after
the forced collection pass) raises `MemoryLimitError`, which the
dedicated handler turns directly into a critical-severity report and
`None` — no recovery is attempted, because the recovery dispatch lives in
the generic handler and is keyed on the class name `MemoryError`, not
`MemoryLimitError`.  The truncate-to-1000-lines retry runs only when a
builtin `MemoryError` reaches the generic handler (for example raised
during the file read). -/
theorem memory_failure_paths :
    (∀ (cfg : AnalyzerConfig) (f : FileEnv),
      f.size_mb ≤ cfg.max_file_size_mb → memGuardTrips f = true →
      analyze_file_safe cfg f = (none, [memoryLimitReport f])) ∧
    (∀ (cfg : AnalyzerConfig) (f : FileEnv),
      f.size_mb ≤ cfg.max_file_size_mb → memGuardTrips f = false →
      f.read_outcome = .raises "MemoryError" →
      analyze_file_safe cfg f =
        match _recover_from_memory_error f with
        | some res => (some res, [])
        | none => (none, [genericReport f "MemoryError"])) := by
  constructor
  · intro cfg f hsz hmem
    unfold analyze_file_safe analyzeFileBody
    rw [if_neg (not_lt.mpr hsz), if_pos hmem]
    rfl
  · intro cfg f hsz hmem hread
    unfold analyze_file_safe analyzeFileBody
    rw [if_neg (not_lt.mpr hsz), hmem, hread]
    have hlk : error_recovery_strategies.lookup "MemoryError" =
        some _recover_from_memory_error := rfl
    cases hrec : _recover_from_memory_error f with
    | some res => simp [hlk, hrec]
    | none => simp [hlk, hrec]

/-- C6, claim as frozen, refuted: a file on which the memory guard trips
even though the truncated re-parse would succeed (the parse oracle
accepts the first 1000 lines) is still given up with a critical report
and no result — the recovery step is not applied before giving up. -/
theorem memory_failure_paths_cex :
    analyze_file_safe {}
        ⟨"big.py", 1, true, true, .ok ["x"], ["x"],
          fun _ => .success (.other .nil), false⟩ =
      (none, [memoryLimitReport
        ⟨"big.py", 1, true, true, .ok ["x"], ["x"],
          fun _ => .success (.other .nil), false⟩]) ∧
    _recover_from_memory_error
        ⟨"big.py", 1, true, true, .ok ["x"], ["x"],
          fun _ => .success (.other .nil), false⟩ =
      some (.other .nil, ["x"]) :=
  ⟨rfl, rfl⟩

/-- Witness for `memory_failure_paths` at concrete inputs: one file that
trips the guard and one whose read raises a builtin `MemoryError` and is
recovered via the 1000-line truncation. -/
theorem memory_failure_paths_witness :
    analyze_file_safe {}
        ⟨"big.py", 1, true, true, .ok ["x"], ["x"],
          fun _ => .success (.other .nil), false⟩ =
      (none, [memoryLimitReport
        ⟨"big.py", 1, true, true, .ok ["x"], ["x"],
          fun _ => .success (.other .nil), false⟩]) ∧
    analyze_file_safe {}
        ⟨"m.py", 1, false, false, .raises "MemoryError", ["y"],
          fun _ => .success (.other .nil), false⟩ =
      (some (.other .nil, ["y"]), []) := by
  constructor
  · exact memory_failure_paths.1 {}
      ⟨"big.py", 1, true, true, .ok ["x"], ["x"],
        fun _ => .success (.other .nil), false⟩ (by decide) rfl
  · have h := memory_failure_paths.2 {}
      ⟨"m.py", 1, false, false, .raises "MemoryError", ["y"],
        fun _ => .success (.other .nil), false⟩ (by decide) rfl rfl
    exact h.trans rfl

/-! ## Project-run behaviour -/

/-- C1: evaluation of `analyze_project` at the deciding inputs.  When
every file fails (a syntax-error file plus a timed-out file, on a fresh
graph), the run does complete and return a results dict — but its summary
is the empty dict `{}` (`none`), with no aggregate block.  When any file
succeeds, the node table is nonempty and `_generate_summary` raises
`AttributeError` (`PersistentCodeNode.calculate_quality_score` is
undefined in the repository), so `analyze_project` raises instead of
returning a summary at all. -/
theorem analyze_project_summary_bug :
    analyze_project {} GraphState.empty
        [failFileRun "a.py", timeoutFileRun "b.py"] =
      .ok ({ counters :=
              { files_analyzed := 0, files_failed := 1,
                nodes_created := 0, edges_created := 0,
                errors := [("b.py", "Timeout")] },
             summary := none },
        { nodes := [], file_registry := [],
          analyzer_errors :=
            [synErrorReport (failFileRun "a.py").env 1 1 "def f("] }) ∧
    analyze_project {} GraphState.empty [okFileRun "c.py" "n1"] =
      .error "AttributeError" :=
  ⟨rfl, rfl⟩

/-- C7: evaluation of the three-file scenario (two parse-clean files, one
oversized).  The collection loop classifies the run as 2 analyzed, 0
failed with an empty loop-error list; the analyzer error log holds
exactly one report for the oversized file, of warning severity, and that
report is recorded before any read — replacing the entire content, raw
bytes and parse behaviour of the oversized file changes nothing.  But
`analyze_project` itself then raises `AttributeError` inside
`_generate_summary` (undefined `calculate_quality_score`), so no run
summary reporting those counts is ever returned. -/
theorem three_file_run_skip :
    (runLoop {} GraphState.empty
        [okFileRun "a.py" "n1", oversizedFileRun "b.py",
          okFileRun "c.py" "n3"]).1 =
      { files_analyzed := 2, files_failed := 0, nodes_created := 2,
        edges_created := 0, errors := [] } ∧
    (runLoop {} GraphState.empty
        [okFileRun "a.py" "n1", oversizedFileRun "b.py",
          okFileRun "c.py" "n3"]).2.analyzer_errors =
      [fileSizeReport (oversizedFileRun "b.py").env] ∧
    (fileSizeReport (oversizedFileRun "b.py").env).severity = "warning" ∧
    analyze_file_safe {} (oversizedFileRun "b.py").env =
      analyze_file_safe {}
        { (oversizedFileRun "b.py").env with
          read_outcome := .raises "IOError", raw_lines := [],
          parse := fun _ => .synError 1 1 "" } ∧
    analyze_project {} GraphState.empty
        [okFileRun "a.py" "n1", oversizedFileRun "b.py",
          okFileRun "c.py" "n3"] =
      .error "AttributeError" :=
  ⟨rfl, rfl, rfl, rfl, rfl⟩

end SRPK
